import Mathlib

/-!
Verification development for the agent-detection engine of the
`agentic_setup` repository (`scripts/agent_detector.py` and the
observability recommendation of
`github-copilot/scripts/analyze_project.py`).

The Python code is shallowly embedded below.  Python strings are Lean
`String`s; all character-level work is done on `String.data` (`List Char`)
so that every definition evaluates inside the kernel.  The filesystem
queries that the Python code performs (`Path.glob`, `Path.rglob`,
`Path.exists`) are modelled by an explicit record of query functions `FS`,
because `_should_enable_agent` issues such queries directly while it
evaluates trigger rules.  Python `set` iteration order is carried by the
order of a Lean `List`; `str(set_of_strings)` is modelled by
`frameworksStr` below.
-/

/-- ASCII lowercasing of one character, as Python `str.lower` acts on the
ASCII strings that occur in this program. -/
def pyLowerChar (c : Char) : Char :=
  if 'A' ≤ c && c ≤ 'Z' then Char.ofNat (c.toNat + 32) else c

/-- Lowercase a character list (the model of `.lower()`). -/
def lowerChars (l : List Char) : List Char := l.map pyLowerChar

/-- Substring test on character lists: does `needle` occur contiguously
inside `hay`?  This is the model of Python's `needle in hay` on strings. -/
def charsInfixOf (needle : List Char) : List Char → Bool
  | [] => needle.isEmpty
  | c :: rest => needle.isPrefixOf (c :: rest) || charsInfixOf needle rest

/-- Python `needle in hay` for strings. -/
def strContains (hay needle : String) : Bool :=
  charsInfixOf needle.data hay.data

/-- Python-faithful suffix test (used to model `rglob("*" + ext)`:
a recursive glob for `*ext` matches exactly the files whose path ends
with `ext`, since `ext` never contains a path separator here). -/
def endsWithS (s suffixStr : String) : Bool :=
  suffixStr.data.isSuffixOf s.data

/-- Model of Python `str(set_of_strings)`: `set()` when empty, otherwise
the quoted elements joined by a comma, in the set's iteration order
(carried here by the list order). -/
def frameworksStr (fws : List String) : String :=
  match fws with
  | [] => "set()"
  | _ => "\x7b" ++ String.intercalate ", " (fws.map (fun f => "\x27" ++ f ++ "\x27")) ++ "\x7d"

/-- The lowercased set representation, `str(self.detected_frameworks).lower()`. -/
def frameworksStrLower (fws : List String) : String :=
  ⟨lowerChars (frameworksStr fws).data⟩

/-- The Signal Snapshot: the collector state of `AgentDetector` at the
moment the optional-agent rules are evaluated (`detected_languages`,
`detected_frameworks`, `detected_patterns`, `file_count`, `line_count`,
`contributors`). -/
structure Snapshot where
  detected_languages : List (String × Nat)
  detected_frameworks : List String
  detected_patterns : List String
  file_count : Nat
  line_count : Nat
  contributors : Nat

/-- The filesystem queries `_should_enable_agent` (and `_detect_patterns`)
issue directly against the repository root while evaluating rules:
`globHit p` says `list(self.repo_path.glob(p))` is nonempty,
`rglobHit p` says `list(self.repo_path.rglob(p))` is nonempty, and
`pathExists n` says `(self.repo_path / n).exists()`. -/
structure FS where
  globHit : String → Bool
  rglobHit : String → Bool
  pathExists : String → Bool

/-- A trigger record of `OPTIONAL_AGENT_TRIGGERS`: each field is the
optional dictionary entry of the same name in the Python table. -/
structure Triggers where
  file_patterns : Option (List String) := none
  file_types : Option (List String) := none
  files : Option (List String) := none
  frameworks : Option (List String) := none
  keywords : Option (List String) := none
  tech_indicators : Option (List String) := none
  min_files : Option Nat := none
  min_deps : Option Nat := none
  min_contributors : Option Nat := none
  indicators : Option (List String) := none
  description : Option String := none

/-- Agents always enabled for any codebase (`AgentDetector.DEFAULT_AGENTS`). -/
def DEFAULT_AGENTS : List String :=
  ["data-agent", "logic-agent", "test-agent", "security-agent", "infra-agent", "doc-agent"]

def performanceTriggers : Triggers :=
  { file_patterns := some ["*/api/*", "*/backend/*", "*/pipeline/*"]
    file_types := some [".go", ".rs", ".cpp"]
    keywords := some ["performance", "optimization", "profiling", "benchmark"]
    min_files := some 10
    description := some "Detected API/backend services or performance-critical code" }

def refactorTriggers : Triggers :=
  { indicators := some ["high_duplication", "large_files", "complex_functions"]
    min_files := some 50
    description := some "Detected mature codebase that could benefit from refactoring" }

def observabilityTriggers : Triggers :=
  { file_patterns := some ["*/logging/*", "*/monitoring/*", "*/metrics/*"]
    keywords := some ["logger", "metrics", "trace", "span", "observability"]
    frameworks := some ["prometheus", "datadog", "newrelic", "sentry"]
    description := some "Detected observability or distributed systems patterns" }

def researchTriggers : Triggers :=
  { tech_indicators := some ["ml", "ai", "pytorch", "tensorflow", "transformers"]
    min_deps := some 20
    description := some "Detected fast-moving tech stack (AI/ML)" }

def devexTriggers : Triggers :=
  { indicators := some ["multiple_contributors", "active_prs"]
    min_contributors := some 3
    description := some "Detected team-scale repository" }

def uxAccessibilityTriggers : Triggers :=
  { file_patterns := some ["*/components/*", "*/ui/*", "*/pages/*"]
    frameworks := some ["react", "vue", "angular", "svelte"]
    file_types := some [".jsx", ".tsx", ".vue"]
    description := some "Detected frontend/UI project" }

def errorHandlingTriggers : Triggers :=
  { indicators := some ["production_code", "error_patterns"]
    keywords := some ["try", "catch", "error", "exception", "handle"]
    description := some "Detected production codebase" }

def dependencyTriggers : Triggers :=
  { files := some ["package.json", "requirements.txt", "Cargo.toml", "go.mod", "Gemfile"]
    min_deps := some 10
    description := some "Detected package manager with dependencies" }

def buildTriggers : Triggers :=
  { files := some [".github/workflows", ".gitlab-ci.yml", "Jenkinsfile", ".circleci"]
    keywords := some ["ci", "cd", "pipeline", "workflow"]
    description := some "Detected CI/CD pipelines" }

def costTriggers : Triggers :=
  { file_patterns := some ["*/cloud/*", "*/aws/*", "*/gcp/*", "*/azure/*"]
    files := some ["serverless.yml", "lambda", "function"]
    keywords := some ["serverless", "lambda", "cloud", "aws", "gcp"]
    description := some "Detected cloud/serverless infrastructure" }

def knowledgeTriggers : Triggers :=
  { indicators := some ["active_docs", "wiki"]
    file_patterns := some ["*/docs/*", "*/wiki/*"]
    description := some "Detected documentation system" }

def ethicsComplianceTriggers : Triggers :=
  { keywords := some ["gdpr", "hipaa", "pci", "compliance", "privacy", "regulation"]
    file_patterns := some ["*/compliance/*", "*/legal/*"]
    description := some "Detected compliance requirements" }

def benchmarkTriggers : Triggers :=
  { file_patterns := some ["*/benchmark/*", "*/perf/*"]
    keywords := some ["benchmark", "performance", "profiling"]
    description := some "Detected benchmark or performance testing" }

def securityRedteamTriggers : Triggers :=
  { indicators := some ["customer_facing", "public_api"]
    keywords := some ["api", "endpoint", "public", "external"]
    description := some "Detected customer-facing or public services" }

/-- The optional-agent rule table, in its Python insertion order. -/
def OPTIONAL_AGENT_TRIGGERS : List (String × Triggers) :=
  [("performance-agent", performanceTriggers),
   ("refactor-agent", refactorTriggers),
   ("observability-agent", observabilityTriggers),
   ("research-agent", researchTriggers),
   ("devex-agent", devexTriggers),
   ("ux-accessibility-agent", uxAccessibilityTriggers),
   ("error-handling-agent", errorHandlingTriggers),
   ("dependency-agent", dependencyTriggers),
   ("build-agent", buildTriggers),
   ("cost-agent", costTriggers),
   ("knowledge-agent", knowledgeTriggers),
   ("ethics-compliance-agent", ethicsComplianceTriggers),
   ("benchmark-agent", benchmarkTriggers),
   ("security-redteam-agent", securityRedteamTriggers)]

/-!
The trigger evaluator, `AgentDetector._should_enable_agent`.  Each Python
`if "<kind>" in triggers: ...` block becomes one Boolean condition below;
an absent dictionary key is an absent `Option` field, whose condition is
`false` (the block is skipped).  Note that the first three kinds and the
`production_code` indicator query the filesystem (`FS`), not the Snapshot.
-/

/-- Block `if "file_patterns" in triggers`: some pattern has a glob hit. -/
def trigFilePatterns (t : Triggers) (fs : FS) : Bool :=
  match t.file_patterns with
  | none => false
  | some pats => pats.any fs.globHit

/-- Block `if "file_types" in triggers`: some extension has a recursive
glob hit for `*ext`. -/
def trigFileTypes (t : Triggers) (fs : FS) : Bool :=
  match t.file_types with
  | none => false
  | some exts => exts.any (fun ext => fs.rglobHit ("*" ++ ext))

/-- Block `if "files" in triggers`: some named file exists under the root
or is found by a recursive glob. -/
def trigFiles (t : Triggers) (fs : FS) : Bool :=
  match t.files with
  | none => false
  | some names => names.any (fun n => fs.pathExists n || fs.rglobHit n)

/-- Block `if "frameworks" in triggers`: set membership in
`detected_frameworks`. -/
def trigFrameworks (t : Triggers) (s : Snapshot) : Bool :=
  match t.frameworks with
  | none => false
  | some fws => fws.any (fun fw => s.detected_frameworks.contains fw)

/-- Block `if "keywords" in triggers`: substring membership in
`str(self.detected_frameworks).lower()` -- not in file contents. -/
def trigKeywords (t : Triggers) (s : Snapshot) : Bool :=
  match t.keywords with
  | none => false
  | some kws => kws.any (fun kw => strContains (frameworksStrLower s.detected_frameworks) kw)

/-- Block `if "tech_indicators" in triggers`: same stringified-framework
substring check as the keyword block. -/
def trigTechIndicators (t : Triggers) (s : Snapshot) : Bool :=
  match t.tech_indicators with
  | none => false
  | some techs => techs.any (fun tech => strContains (frameworksStrLower s.detected_frameworks) tech)

/-- Block `if "min_files" in triggers`: the threshold comparison
`self.file_count >= triggers["min_files"]`.  (The Python code then
additionally requires `agent == "refactor-agent"` before returning;
that guard lives in `shouldEnableAgent` below.) -/
def trigMinFiles (t : Triggers) (s : Snapshot) : Bool :=
  match t.min_files with
  | none => false
  | some n => decide (n ≤ s.file_count)

/-- Block `if "min_contributors" in triggers`. -/
def trigMinContributors (t : Triggers) (s : Snapshot) : Bool :=
  match t.min_contributors with
  | none => false
  | some n => decide (n ≤ s.contributors)

/-- Indicator branch `"production_code" in indicators`: checks whether
`Dockerfile` or `.github/workflows` exists under the root. -/
def indProductionCode (t : Triggers) (fs : FS) : Bool :=
  (t.indicators.getD []).contains "production_code" &&
    (fs.pathExists "Dockerfile" || fs.pathExists ".github/workflows")

/-- Indicator branch `"customer_facing" in indicators or "public_api" in
indicators`: checks the `api` pattern tag. -/
def indCustomerFacing (t : Triggers) (s : Snapshot) : Bool :=
  ((t.indicators.getD []).contains "customer_facing" ||
     (t.indicators.getD []).contains "public_api") &&
    s.detected_patterns.contains "api"

/-- Indicator branch `"multiple_contributors" in indicators`: at least 3
contributors (the 3 is hard-coded in the Python source). -/
def indMultipleContributors (t : Triggers) (s : Snapshot) : Bool :=
  (t.indicators.getD []).contains "multiple_contributors" &&
    decide (3 ≤ s.contributors)

/-- `_should_enable_agent(agent, triggers)`: the early-return chain of the
Python method, block by block in source order.  Returns the
`(should_enable, reason)` pair. -/
def shouldEnableAgent (agent : String) (t : Triggers) (s : Snapshot) (fs : FS) :
    Bool × String :=
  if trigFilePatterns t fs then (true, t.description.getD "Pattern match")
  else if trigFileTypes t fs then (true, t.description.getD "File type match")
  else if trigFiles t fs then (true, t.description.getD "Required file found")
  else if trigFrameworks t s then (true, t.description.getD "Framework detected")
  else if trigKeywords t s then (true, t.description.getD "Keyword match")
  else if trigTechIndicators t s then (true, t.description.getD "Tech stack match")
  else if trigMinFiles t s && agent == "refactor-agent" then
    (true, "Large codebase detected (refactoring recommended)")
  else if trigMinContributors t s then (true, t.description.getD "Team repository")
  else if indProductionCode t fs then (true, t.description.getD "Production code")
  else if indCustomerFacing t s then (true, t.description.getD "Public API detected")
  else if indMultipleContributors t s then (true, t.description.getD "Team repository")
  else (false, "")

/-- Python `dict` assignment `m[k] = v`: replace the value in place if the
key is present, otherwise append the pair (insertion order preserved). -/
def setKey : List (String × String) → String → String → List (String × String)
  | [], k, v => [(k, v)]
  | (k', v') :: rest, k, v =>
      if k' == k then (k', v) :: rest else (k', v') :: setKey rest k v

/-- The optional-agent loop of `AgentDetector.detect`: fold the rule table
over the running `(enabled_agents, reasons)` state, appending each agent
whose rule evaluates to `True`. -/
def detectFold (s : Snapshot) (fs : FS) :
    List (String × Triggers) → List String × List (String × String) →
    List String × List (String × String)
  | [], acc => acc
  | (agent, t) :: rest, acc =>
      let r := shouldEnableAgent agent t s fs
      detectFold s fs rest
        (if r.1 then (acc.1 ++ [agent], setKey acc.2 agent r.2) else acc)

/-- The fixed justification attached to every default agent. -/
def defaultReason : String := "Default agent (enabled for all codebases)"

/-- The decision part of `AgentDetector.detect` (lines 132-146): default
agents first with the fixed reason, then the optional-agent loop, over an
already-collected Snapshot and the filesystem the trigger rules query. -/
def detect (s : Snapshot) (fs : FS) : List String × List (String × String) :=
  detectFold s fs OPTIONAL_AGENT_TRIGGERS
    (DEFAULT_AGENTS, DEFAULT_AGENTS.map (fun a => (a, defaultReason)))

/-!
The collectors.  `_detect_structure` and `_detect_languages` walk the
repository tree; the tree is modelled as the list of its regular files in
`rglob` order.  For each file we record the full path string (Python
compares ignore substrings against `str(file_path)`, the absolute path),
whether `open()` succeeds, whether the raw bytes are entirely valid UTF-8
(never consulted by the scanner, recorded so that statements can speak
about undecodable files), and the text that `utf-8` decoding with
`errors="ignore"` produces.  CPython's `errors="ignore"` drops only the
undecodable bytes, so newline bytes of a binary file survive into the
decoded text.
-/

structure ScanFile where
  path : String
  opens : Bool
  utf8Valid : Bool
  decoded : String

structure RepoTree where
  files : List ScanFile

/-- The fixed ignore substrings of `_should_ignore`. -/
def ignorePatterns : List String :=
  [".git", "node_modules", "__pycache__", ".pytest_cache",
   "venv", "env", ".venv", "dist", "build", ".next",
   ".cache", "coverage", ".DS_Store"]

/-- `_should_ignore`: any ignore substring occurs anywhere in the path. -/
def shouldIgnore (path : String) : Bool :=
  ignorePatterns.any (fun p => strContains path p)

/-- Number of lines Python's text iteration `sum(1 for _ in f)` yields on
decoded text: one line per newline, plus a final line for a nonempty tail
without a trailing newline. -/
def pyLineCountChars (l : List Char) : Nat :=
  if l.isEmpty then 0
  else l.count '\n' + (if l.getLast? == some '\n' then 0 else 1)

/-- `_detect_structure`: walk every file once; a non-ignored file always
increments `file_count`, and adds its line count when `open()` succeeds
(a failed `open` is swallowed by `except Exception: pass`).  Result is
`(file_count, line_count)`. -/
def detectStructure (t : RepoTree) : Nat × Nat :=
  t.files.foldl
    (fun acc f =>
      if shouldIgnore f.path then acc
      else (acc.1 + 1, acc.2 + (if f.opens then pyLineCountChars f.decoded.data else 0)))
    (0, 0)

/-- The `extensions` dictionary of `_detect_languages`, in insertion
order. -/
def extensionsMap : List (String × String) :=
  [(".py", "Python"), (".js", "JavaScript"), (".ts", "TypeScript"),
   (".jsx", "React"), (".tsx", "React TypeScript"), (".java", "Java"),
   (".go", "Go"), (".rs", "Rust"), (".rb", "Ruby"), (".php", "PHP"),
   (".cpp", "C++"), (".c", "C"), (".cs", "C#"), (".swift", "Swift"),
   (".kt", "Kotlin")]

/-- Size of `list(self.repo_path.rglob("*" + ext))`: every file in the
tree whose path ends with the extension, with no ignore filtering (the
language collector applies none). -/
def countExt (t : RepoTree) (ext : String) : Nat :=
  (t.files.filter (fun f => endsWithS f.path ext)).length

/-- Python `Counter[k] += n`: add into an existing entry, else append. -/
def counterAdd : List (String × Nat) → String → Nat → List (String × Nat)
  | [], k, n => [(k, n)]
  | (k', m) :: rest, k, n =>
      if k' == k then (k', m + n) :: rest else (k', m) :: counterAdd rest k n

/-- The loop of `_detect_languages` over the extension map: record a
language only when at least one matching file exists. -/
def buildLangs (t : RepoTree) : List (String × String) → List (String × Nat) → List (String × Nat)
  | [], acc => acc
  | (ext, lang) :: rest, acc =>
      let n := countExt t ext
      buildLangs t rest (if 0 < n then counterAdd acc lang n else acc)

/-- `_detect_languages`: the language histogram.  Note it works on raw
`rglob` results and never consults `_should_ignore`. -/
def detectLanguages (t : RepoTree) : List (String × Nat) :=
  buildLangs t extensionsMap []

/-- The `patterns_to_check` table of `AgentDetector._detect_patterns`. -/
def patternsToCheck : List (String × List String) :=
  [("api", ["*/api/*", "*/routes/*", "*/endpoints/*"]),
   ("database", ["*/models/*", "*/db/*", "*/database/*"]),
   ("testing", ["*/tests/*", "*/test/*", "*/__tests__/*"]),
   ("frontend", ["*/components/*", "*/views/*", "*/pages/*"]),
   ("ml", ["*/models/*", "*/training/*", "*/inference/*"])]

/-- `AgentDetector._detect_patterns`: a tag is added when its first glob
pattern with a hit is reached (adding once then breaking is the same as
adding when any pattern hits). -/
def detectPatterns (fs : FS) : List String :=
  patternsToCheck.foldl
    (fun acc p => if p.2.any fs.globHit then acc ++ [p.1] else acc) []

/-!
The CLI, `agent_detector.main`.  The Python entry point exits with code 1
only when no repository-path argument is given; it never checks that the
path exists or is a directory: `Path(arg).resolve()` does not raise for a
missing path, `glob`/`rglob` on a missing directory yield empty
sequences, the manifest `exists()` checks are `False`, and the `git`
subprocess error (missing working directory) is swallowed by
`except Exception: pass`.  A missing root therefore behaves exactly like
an empty tree with all filesystem queries false and zero contributors.
The run's inputs beyond `argv` are the tree, the query record, the
manifest-derived framework list and the contributor count.
-/

/-- Exit code and (for a completed analysis) the decision record produced
by `main`. -/
def runCLI (argv : List String) (t : RepoTree) (fs : FS)
    (fws : List String) (git : Nat) :
    Nat × Option (List String × List (String × String)) :=
  if argv.length < 2 then (1, none)
  else
    (0, some (detect
      { detected_languages := detectLanguages t
        detected_frameworks := fws
        detected_patterns := detectPatterns fs
        file_count := (detectStructure t).1
        line_count := (detectStructure t).2
        contributors := git } fs))

/-- The observability clause of `_recommend_agents` in
`github-copilot/scripts/analyze_project.py`: the agent is recommended when
both the `api` and `docker` pattern tags are present, or when
`prometheus`/`datadog` occurs in the (non-lowercased) stringified
framework set. -/
def apObservability (pats : List String) (fws : List String) : Bool :=
  (pats.contains "api" && pats.contains "docker") ||
    ["prometheus", "datadog"].any (fun fw => strContains (frameworksStr fws) fw)

/-!
Spec-side definitions.  `specOrderChain` spells out, in the spec's words
as amended, the fixed priority order of predicate evaluation together
with the reason each position emits; `firstSat` is "stop at the first
satisfied predicate" (and "considered, not enabled with no reason" when
none is satisfied).  The refinement theorem for C3 compares the source
embedding `shouldEnableAgent` against this chain.
-/

/-- Stop at the first satisfied predicate and emit its reason; with no
satisfied predicate, not enabled and no reason. -/
def firstSat : List (Bool × String) → Bool × String
  | [] => (false, "")
  | (b, r) :: rest => if b then (true, r) else firstSat rest

/-- The fixed priority order: file-pattern, extension, required-file,
framework membership, keyword membership, tech-stack keyword membership,
minimum-file-count (effective only for the refactor agent, with a fixed
reason), minimum-contributor-count, then the named indicators. -/
def specOrderChain (agent : String) (t : Triggers) (s : Snapshot) (fs : FS) :
    List (Bool × String) :=
  [(trigFilePatterns t fs, t.description.getD "Pattern match"),
   (trigFileTypes t fs, t.description.getD "File type match"),
   (trigFiles t fs, t.description.getD "Required file found"),
   (trigFrameworks t s, t.description.getD "Framework detected"),
   (trigKeywords t s, t.description.getD "Keyword match"),
   (trigTechIndicators t s, t.description.getD "Tech stack match"),
   (trigMinFiles t s && agent == "refactor-agent",
      "Large codebase detected (refactoring recommended)"),
   (trigMinContributors t s, t.description.getD "Team repository"),
   (indProductionCode t fs, t.description.getD "Production code"),
   (indCustomerFacing t s, t.description.getD "Public API detected"),
   (indMultipleContributors t s, t.description.getD "Team repository")]

/-- An all-negative filesystem: every query misses.  This is both a handy
concrete value and the model of a nonexistent root directory. -/
def fsEmpty : FS := ⟨fun _ => false, fun _ => false, fun _ => false⟩

/-- A filesystem whose only hit is the glob pattern for an api directory. -/
def fsApiDir : FS := ⟨fun p => p == "*/api/*", fun _ => false, fun _ => false⟩

/-- An empty Snapshot: no signals at all. -/
def snapEmpty : Snapshot := ⟨[], [], [], 0, 0, 0⟩

/-!
Helper lemmas shared by the claim theorems.
-/

/-- The substring test agrees with `List.IsInfix`. -/
theorem charsInfixOf_iff (n : List Char) :
    ∀ h : List Char, charsInfixOf n h = true ↔ n <:+: h := by
  intro h
  induction h with
  | nil => simp [charsInfixOf, List.isEmpty_iff, List.infix_nil]
  | cons c rest ih =>
      simp [charsInfixOf, List.isPrefixOf_iff_prefix, ih, List.infix_cons_iff]

/-- The enable bit of `_should_enable_agent` is the disjunction of its
eleven conditions, with the minimum-file-count condition guarded by the
agent being the refactor agent. -/
theorem shouldEnableAgent_fst_or (a : String) (t : Triggers) (s : Snapshot) (fs : FS) :
    (shouldEnableAgent a t s fs).1 =
      (trigFilePatterns t fs || trigFileTypes t fs || trigFiles t fs ||
       trigFrameworks t s || trigKeywords t s || trigTechIndicators t s ||
       (trigMinFiles t s && a == "refactor-agent") || trigMinContributors t s ||
       indProductionCode t fs || indCustomerFacing t s || indMultipleContributors t s) := by
  have key : ∀ (c : Bool) (r : String) (p : Bool × String),
      (if c then (true, r) else p).1 = (c || p.1) := by
    intro c r p; cases c <;> simp
  simp only [shouldEnableAgent, key]
  simp [Bool.or_assoc]

/-- `dict` assignment at another key leaves a lookup unchanged. -/
theorem setKey_lookup_ne (a k v : String) (h : ¬ a = k) :
    ∀ m : List (String × String), List.lookup a (setKey m k v) = List.lookup a m := by
  have hbeq : (a == k) = false := beq_eq_false_iff_ne.mpr h
  intro m
  induction m with
  | nil => simp [setKey, List.lookup, hbeq]
  | cons p rest ih =>
      by_cases hk : p.1 = k
      · simp [setKey, hk, List.lookup, hbeq]
      · by_cases ha : a = p.1 <;>
          simp [setKey, List.lookup, hk, ha, ih, beq_iff_eq, hbeq]

/-- The optional-agent loop only appends, so a previously enabled agent
stays enabled. -/
theorem detectFold_mem (s : Snapshot) (fs : FS) (a : String) :
    ∀ (tbl : List (String × Triggers)) (acc : List String × List (String × String)),
      a ∈ acc.1 → a ∈ (detectFold s fs tbl acc).1 := by
  intro tbl
  induction tbl with
  | nil => intro acc h; simpa [detectFold] using h
  | cons p rest ih =>
      intro acc h
      simp only [detectFold]
      split
      · exact ih _ (by simp [h])
      · exact ih _ h

/-- The optional-agent loop cannot touch the reason recorded for a key
that is not an optional agent of the table. -/
theorem detectFold_lookup_ne (s : Snapshot) (fs : FS) (a : String) :
    ∀ (tbl : List (String × Triggers)) (acc : List String × List (String × String)),
      (∀ p ∈ tbl, ¬ p.1 = a) →
      List.lookup a (detectFold s fs tbl acc).2 = List.lookup a acc.2 := by
  intro tbl
  induction tbl with
  | nil => intro acc _; simp [detectFold]
  | cons p rest ih =>
      intro acc h
      simp only [detectFold]
      have hp : ¬ p.1 = a := h p (by simp)
      have hrest : ∀ q ∈ rest, ¬ q.1 = a := fun q hq => h q (by simp [hq])
      split
      · rw [ih _ hrest]
        exact setKey_lookup_ne a p.1 _ (fun hc => hp hc.symm) acc.2
      · exact ih _ hrest

/-- `Counter` addition at another key leaves a lookup unchanged. -/
theorem counterAdd_lookup_ne (a k : String) (n : Nat) (h : ¬ a = k) :
    ∀ m : List (String × Nat), List.lookup a (counterAdd m k n) = List.lookup a m := by
  have hbeq : (a == k) = false := beq_eq_false_iff_ne.mpr h
  intro m
  induction m with
  | nil => simp [counterAdd, List.lookup, hbeq]
  | cons p rest ih =>
      by_cases hk : p.1 = k
      · simp [counterAdd, hk, List.lookup, hbeq]
      · by_cases ha : a = p.1 <;>
          simp [counterAdd, List.lookup, hk, ha, ih, beq_iff_eq, hbeq]

/-- The language loop cannot touch a language that none of its remaining
extensions map to. -/
theorem buildLangs_lookup_ne (t : RepoTree) (a : String) :
    ∀ (exts : List (String × String)) (acc : List (String × Nat)),
      (∀ q ∈ exts, ¬ q.2 = a) →
      List.lookup a (buildLangs t exts acc) = List.lookup a acc := by
  intro exts
  induction exts with
  | nil => intro acc _; simp [buildLangs]
  | cons q rest ih =>
      intro acc h
      have hq : ¬ q.2 = a := h q (by simp)
      have hrest : ∀ r ∈ rest, ¬ r.2 = a := fun r hr => h r (by simp [hr])
      simp only [buildLangs]
      split
      · rw [ih _ hrest]
        exact counterAdd_lookup_ne a q.2 _ (fun hc => hq hc.symm) acc
      · exact ih _ hrest

/-- The JavaScript entry of the language histogram is exactly the number
of `.js`-suffixed files of the raw (unfiltered) tree. -/
theorem detectLanguages_js (t : RepoTree) :
    List.lookup "JavaScript" (detectLanguages t) =
      if 0 < countExt t ".js" then some (countExt t ".js") else none := by
  have step : detectLanguages t =
      buildLangs t
        [(".ts", "TypeScript"), (".jsx", "React"), (".tsx", "React TypeScript"),
         (".java", "Java"), (".go", "Go"), (".rs", "Rust"), (".rb", "Ruby"),
         (".php", "PHP"), (".cpp", "C++"), (".c", "C"), (".cs", "C#"),
         (".swift", "Swift"), (".kt", "Kotlin")]
        (if 0 < countExt t ".js" then
           counterAdd
             (if 0 < countExt t ".py" then counterAdd [] "Python" (countExt t ".py") else [])
             "JavaScript" (countExt t ".js")
         else
           (if 0 < countExt t ".py" then counterAdd [] "Python" (countExt t ".py") else [])) := rfl
  rw [step, buildLangs_lookup_ne t "JavaScript" _ _ (by decide)]
  by_cases hp : 0 < countExt t ".py" <;>
    by_cases hj : 0 < countExt t ".js" <;>
      simp [hp, hj, counterAdd, List.lookup]

/-- Appending one file to the tree shifts the `.js` file count by its
suffix match. -/
theorem countExt_append (l : List ScanFile) (f : ScanFile) (ext : String) :
    countExt ⟨l ++ [f]⟩ ext =
      countExt ⟨l⟩ ext + (if endsWithS f.path ext then 1 else 0) := by
  simp only [countExt, List.filter_append]
  split <;> simp_all [List.filter]

/-- One step of the structure collector, extracted by unfolding the fold
over an appended file. -/
theorem detectStructure_append (l : List ScanFile) (f : ScanFile) :
    detectStructure ⟨l ++ [f]⟩ =
      (if shouldIgnore f.path then detectStructure ⟨l⟩
       else ((detectStructure ⟨l⟩).1 + 1,
             (detectStructure ⟨l⟩).2 +
               (if f.opens then pyLineCountChars f.decoded.data else 0))) := by
  simp only [detectStructure, List.foldl_append, List.foldl]

/-!
Claim theorems.
-/

/-- Claim C1, counterexample.  The performance agent's rule contains a
minimum-file-count predicate with threshold 10, and a snapshot whose
`file_count` is 10 satisfies that predicate; yet the evaluator does not
enable the agent (the `min_files` branch of `_should_enable_agent`
returns only when the agent is the refactor agent), so a satisfied
predicate is not sufficient and the OR-across-predicates claim fails. -/
theorem c1_counterexample :
    performanceTriggers.min_files = some 10 ∧
    trigMinFiles performanceTriggers ⟨[], [], [], 10, 0, 0⟩ = true ∧
    shouldEnableAgent "performance-agent" performanceTriggers
      ⟨[], [], [], 10, 0, 0⟩ fsEmpty = (false, "") := by
  refine ⟨rfl, by decide, by decide⟩

/-- Claim C1, amended.  Any one satisfied predicate enables an agent for
every predicate kind except minimum-file-count: the file-pattern,
extension, required-file, framework, keyword, tech-indicator,
minimum-contributor and named-indicator predicates each suffice on their
own; the minimum-file-count predicate suffices only for the refactor
agent (whose threshold is 50). -/
theorem c1_or_except_min_files (a : String) (t : Triggers) (s : Snapshot) (fs : FS) :
    ((trigFilePatterns t fs || trigFileTypes t fs || trigFiles t fs ||
      trigFrameworks t s || trigKeywords t s || trigTechIndicators t s ||
      trigMinContributors t s || indProductionCode t fs ||
      indCustomerFacing t s || indMultipleContributors t s) = true →
      (shouldEnableAgent a t s fs).1 = true) ∧
    (50 ≤ s.file_count →
      (shouldEnableAgent "refactor-agent" refactorTriggers s fs).1 = true) := by
  constructor
  · intro h
    rw [shouldEnableAgent_fst_or]
    simp only [Bool.or_eq_true] at h ⊢
    tauto
  · intro h
    rw [shouldEnableAgent_fst_or]
    have hmf : trigMinFiles refactorTriggers s = true := by
      simp [trigMinFiles, refactorTriggers, h]
    simp [hmf]

/-- Claim C1, witness for the amended theorem: a snapshot with three
contributors enables the devex agent through its minimum-contributor
predicate alone, and a snapshot of 50 files enables the refactor agent
through its minimum-file-count predicate alone. -/
theorem c1_witness :
    (shouldEnableAgent "devex-agent" devexTriggers ⟨[], [], [], 0, 0, 3⟩ fsEmpty).1 = true ∧
    (shouldEnableAgent "refactor-agent" refactorTriggers ⟨[], [], [], 50, 0, 0⟩ fsEmpty).1 = true :=
  ⟨(c1_or_except_min_files "devex-agent" devexTriggers ⟨[], [], [], 0, 0, 3⟩ fsEmpty).1
      (by decide),
   (c1_or_except_min_files "devex-agent" devexTriggers ⟨[], [], [], 50, 0, 0⟩ fsEmpty).2
      (by decide)⟩

/-- Claim C2, counterexample.  Two evaluations over the identical empty
Snapshot and the same rule table yield different decision records when
the filesystem under the root differs (here: whether a `*/api/*`
directory glob hits), because `_should_enable_agent` queries the
filesystem directly while evaluating; so trigger evaluation is not a
pure function of Snapshot and rule table. -/
theorem c2_counterexample :
    detect snapEmpty fsEmpty ≠ detect snapEmpty fsApiDir := by decide

/-- Claim C2, amended.  Trigger evaluation is a pure function of the
Snapshot, the rule table, and the state of the filesystem under the
root: for a rule with no file-pattern, extension or required-file
predicate and no `production_code` indicator, the decision does not
depend on the filesystem at all. -/
theorem c2_pure_given_fs (a : String) (t : Triggers) (s : Snapshot) (fs fs' : FS)
    (h1 : t.file_patterns = none) (h2 : t.file_types = none) (h3 : t.files = none)
    (h4 : (t.indicators.getD []).contains "production_code" = false) :
    shouldEnableAgent a t s fs = shouldEnableAgent a t s fs' := by
  unfold shouldEnableAgent
  have h4' : "production_code" ∉ t.indicators.getD [] := by simpa using h4
  simp [trigFilePatterns, trigFileTypes, trigFiles, indProductionCode, h1, h2, h3, h4']

/-- Claim C2, witness for the amended theorem: the devex rule has no
filesystem-consulting predicate, so its decision agrees across the two
filesystems of the counterexample. -/
theorem c2_witness :
    shouldEnableAgent "devex-agent" devexTriggers snapEmpty fsEmpty =
      shouldEnableAgent "devex-agent" devexTriggers snapEmpty fsApiDir :=
  c2_pure_given_fs "devex-agent" devexTriggers snapEmpty fsEmpty fsApiDir
    rfl rfl rfl (by decide)

/-- Claim C3, counterexample.  When the refactor agent is enabled by its
minimum-file-count predicate, the emitted reason is the hard-coded
string "Large codebase detected (refactoring recommended)", not the
rule's description; and the performance agent's satisfied
minimum-file-count predicate neither stops evaluation nor enables the
agent.  Both contradict "evaluation stops at the first satisfied
predicate and that predicate's associated description is the reason". -/
theorem c3_counterexample :
    shouldEnableAgent "refactor-agent" refactorTriggers ⟨[], [], [], 50, 0, 0⟩ fsEmpty =
      (true, "Large codebase detected (refactoring recommended)") ∧
    refactorTriggers.description =
      some "Detected mature codebase that could benefit from refactoring" ∧
    trigMinFiles performanceTriggers ⟨[], [], [], 10, 0, 0⟩ = true ∧
    shouldEnableAgent "performance-agent" performanceTriggers
      ⟨[], [], [], 10, 0, 0⟩ fsEmpty = (false, "") := by
  refine ⟨by decide, rfl, by decide, by decide⟩

/-- Claim C3, amended.  Predicates are evaluated in the fixed priority
order file-pattern, extension, required-file, framework membership,
keyword membership, tech-stack keyword membership, minimum-file-count,
minimum-contributor-count, named indicators; evaluation stops at the
first satisfied predicate, whose associated reason (the rule's
description, except for minimum-file-count, which is effective only for
the refactor agent and emits a fixed hard-coded reason) is emitted; an
agent with no satisfied predicate is recorded as not enabled with no
reason.  Stated as: the evaluator equals first-match over the ordered
chain of predicate/reason pairs. -/
theorem c3_priority_chain (a : String) (t : Triggers) (s : Snapshot) (fs : FS) :
    shouldEnableAgent a t s fs = firstSat (specOrderChain a t s fs) := by
  rfl

/-- Claim C4, counterexample.  A snapshot whose patterns set contains
both "api" and "docker" does not enable the observability agent of the
detection engine: its rule consults file patterns, keywords and
frameworks, never the patterns set. -/
theorem c4_counterexample :
    shouldEnableAgent "observability-agent" observabilityTriggers
      ⟨[], [], ["api", "docker"], 0, 0, 0⟩ fsEmpty = (false, "") := by decide

/-- Claim C4, amended.  In the detection engine the observability
decision is independent of the patterns set (and the engine's pattern
collector cannot even produce a "docker" tag); the claimed behaviour
belongs to the copilot analyzer's recommender, where patterns containing
both "api" and "docker" does enable the Observability Agent, and
removing either tag disables it provided neither "prometheus" nor
"datadog" occurs in the stringified framework set. -/
theorem c4_amended :
    (∀ (langs : List (String × Nat)) (fws pats pats' : List String)
        (fc lc c : Nat) (fs : FS),
      shouldEnableAgent "observability-agent" observabilityTriggers
        ⟨langs, fws, pats, fc, lc, c⟩ fs =
      shouldEnableAgent "observability-agent" observabilityTriggers
        ⟨langs, fws, pats', fc, lc, c⟩ fs) ∧
    (∀ fs : FS, (detectPatterns fs).contains "docker" = false) ∧
    (∀ pats fws : List String, pats.contains "api" = true →
      pats.contains "docker" = true → apObservability pats fws = true) ∧
    (∀ pats fws : List String, (pats.contains "api" && pats.contains "docker") = false →
      (["prometheus", "datadog"].any (fun fw => strContains (frameworksStr fws) fw)) = false →
      apObservability pats fws = false) := by
  refine ⟨fun langs fws pats pats' fc lc c fs => rfl, fun fs => ?_, ?_, ?_⟩
  · simp only [detectPatterns, patternsToCheck, List.foldl]
    repeat' split
    all_goals decide
  · intro pats fws h1 h2
    have m1 : "api" ∈ pats := by simpa using h1
    have m2 : "docker" ∈ pats := by simpa using h2
    simp [apObservability, m1, m2]
  · intro pats fws h1 h2
    simp only [apObservability, h1, h2, Bool.or_self]

/-- Claim C4, witness for the amended theorem: in the copilot
recommender, the tag pair enables the Observability Agent, and dropping
"docker" with no observability framework disables it. -/
theorem c4_witness :
    apObservability ["api", "docker"] [] = true ∧
    apObservability ["api"] [] = false :=
  ⟨c4_amended.2.2.1 ["api", "docker"] [] (by decide) (by decide),
   c4_amended.2.2.2 ["api"] [] (by decide) (by decide)⟩

/-- Claim C5, confirmed.  For every snapshot and filesystem, every agent
of the fixed default list appears in the decision record as enabled,
with the fixed default reason, independent of snapshot content. -/
theorem c5_default_agents (s : Snapshot) (fs : FS) (a : String)
    (ha : a ∈ DEFAULT_AGENTS) :
    a ∈ (detect s fs).1 ∧ List.lookup a (detect s fs).2 = some defaultReason := by
  constructor
  · exact detectFold_mem s fs a OPTIONAL_AGENT_TRIGGERS _ ha
  · unfold detect
    fin_cases ha <;>
      rw [detectFold_lookup_ne _ _ _ _ _ (by decide)] <;> decide

/-- Claim C5, witness: the data agent is enabled with the default reason
on the empty snapshot. -/
theorem c5_witness :
    "data-agent" ∈ (detect snapEmpty fsEmpty).1 ∧
    List.lookup "data-agent" (detect snapEmpty fsEmpty).2 = some defaultReason :=
  c5_default_agents snapEmpty fsEmpty "data-agent" (by decide)

/-- Claim C6, confirmed.  For every snapshot and filesystem the devex
agent's enable bit equals the contributor threshold test: disabled below
3 contributors, enabled at 3 or more — the boundary is exactly 3 (both
the rule's `min_contributors` entry and the hard-coded
`multiple_contributors` indicator use 3). -/
theorem c6_devex_boundary (s : Snapshot) (fs : FS) :
    (shouldEnableAgent "devex-agent" devexTriggers s fs).1 =
      decide (3 ≤ s.contributors) := by
  by_cases h : 3 ≤ s.contributors <;>
    simp [shouldEnableAgent, trigFilePatterns, trigFileTypes, trigFiles,
      trigFrameworks, trigKeywords, trigTechIndicators, trigMinFiles,
      trigMinContributors, indProductionCode, indCustomerFacing,
      indMultipleContributors, devexTriggers, h]

/-- Claim C7, counterexample.  Given a path argument naming a nonexistent
root, the run does not fail fast: `main` never validates the path,
every collector degrades to its empty result (`rglob`/`glob` of a
missing directory are empty, the `git` subprocess error is swallowed),
and the run completes with exit code 0 and a full decision record
instead of surfacing an error. -/
theorem c7_counterexample :
    (runCLI ["agent_detector.py", "/nonexistent/repo"] ⟨[]⟩ fsEmpty [] 0).1 = 0 ∧
    (runCLI ["agent_detector.py", "/nonexistent/repo"] ⟨[]⟩ fsEmpty [] 0).2.isSome = true := by
  refine ⟨rfl, by decide⟩

/-- Claim C7, amended.  There is no invalid-input-path check: whenever a
path argument is supplied the run completes the analysis and exits 0,
treating a missing or non-directory root exactly like an empty tree; the
only nonzero exit is the usage error for a missing argument. -/
theorem c7_no_path_check (argv : List String) (t : RepoTree) (fs : FS)
    (fws : List String) (git : Nat) :
    (2 ≤ argv.length → (runCLI argv t fs fws git).1 = 0) ∧
    (argv.length < 2 → runCLI argv t fs fws git = (1, none)) := by
  constructor
  · intro h
    simp [runCLI, Nat.not_lt.mpr h]
  · intro h
    simp [runCLI, h]

/-- Claim C7, witness: with a path argument the exit code is 0 (here on
the missing-root state), and without one the run exits 1. -/
theorem c7_witness :
    (runCLI ["agent_detector.py", "/nonexistent/repo"] ⟨[]⟩ fsEmpty [] 0).1 = 0 ∧
    runCLI ["agent_detector.py"] ⟨[]⟩ fsEmpty [] 0 = (1, none) :=
  ⟨(c7_no_path_check ["agent_detector.py", "/nonexistent/repo"] ⟨[]⟩ fsEmpty [] 0).1
      (by decide),
   (c7_no_path_check ["agent_detector.py"] ⟨[]⟩ fsEmpty [] 0).2 (by decide)⟩

/-- Claim C8, counterexample.  A file that cannot be decoded as text
(invalid UTF-8, e.g. raw bytes ff 0a ff 0a ff 0a) still opens, and
`errors="ignore"` drops only the undecodable bytes, so its surviving
newlines are counted: the file contributes 1 to `file_count` but 3 — not
0 — to `line_count`. -/
theorem c8_counterexample :
    (⟨"blob.bin", true, false, "\n\n\n"⟩ : ScanFile).utf8Valid = false ∧
    detectStructure ⟨[⟨"blob.bin", true, false, "\n\n\n"⟩]⟩ = (1, 3) := by
  refine ⟨rfl, by decide⟩

/-- Claim C8, amended.  The run always completes; a non-ignored file
whose `open()` raises contributes 1 to `file_count` and nothing to
`line_count`; a non-ignored file that opens — decodable or not —
contributes 1 to `file_count` and the line count of its decoded text
(with decode errors ignored) to `line_count`. -/
theorem c8_unreadable_files (l : List ScanFile) (f : ScanFile)
    (hig : shouldIgnore f.path = false) :
    (f.opens = false → detectStructure ⟨l ++ [f]⟩ =
      ((detectStructure ⟨l⟩).1 + 1, (detectStructure ⟨l⟩).2)) ∧
    (f.opens = true → detectStructure ⟨l ++ [f]⟩ =
      ((detectStructure ⟨l⟩).1 + 1,
       (detectStructure ⟨l⟩).2 + pyLineCountChars f.decoded.data)) := by
  constructor <;> intro ho <;> rw [detectStructure_append] <;> simp [hig, ho]

/-- Claim C8, witness: an unopenable file adds (1, 0) to the structure
metrics, and an openable two-line file adds (1, 2). -/
theorem c8_witness :
    detectStructure ⟨[⟨"locked.txt", false, true, ""⟩]⟩ =
      ((detectStructure ⟨[]⟩).1 + 1, (detectStructure ⟨[]⟩).2) ∧
    detectStructure ⟨[⟨"ok.txt", true, true, "a\nb"⟩]⟩ =
      ((detectStructure ⟨[]⟩).1 + 1,
       (detectStructure ⟨[]⟩).2 + pyLineCountChars ("a\nb" : String).data) :=
  ⟨(c8_unreadable_files [] ⟨"locked.txt", false, true, ""⟩ (by decide)).1 rfl,
   (c8_unreadable_files [] ⟨"ok.txt", true, true, "a\nb"⟩ (by decide)).2 rfl⟩

/-- Claim C9, counterexample.  A file under `node_modules` is ignored by
the structure collector, yet the language collector works on the raw
recursive glob without the ignore filter, so the file still lands in the
language histogram — contradicting "contributes to no collected
signal". -/
theorem c9_counterexample :
    shouldIgnore "node_modules/a.js" = true ∧
    detectStructure ⟨[⟨"node_modules/a.js", true, true, ""⟩]⟩ = (0, 0) ∧
    detectLanguages ⟨[⟨"node_modules/a.js", true, true, ""⟩]⟩ = [("JavaScript", 1)] := by
  refine ⟨by decide, by decide, by decide⟩

/-- Claim C9, amended.  A file whose path contains an ignored substring
contributes neither to `file_count` nor to `line_count`; the language
histogram, however, is computed from an unfiltered recursive glob, so
such a file still contributes to its language's count (shown for a
`.js` file and the JavaScript entry). -/
theorem c9_ignored_files (l : List ScanFile) (f : ScanFile)
    (hig : shouldIgnore f.path = true) :
    detectStructure ⟨l ++ [f]⟩ = detectStructure ⟨l⟩ ∧
    (endsWithS f.path ".js" = true →
      List.lookup "JavaScript" (detectLanguages ⟨l ++ [f]⟩) =
        some (countExt ⟨l⟩ ".js" + 1)) := by
  constructor
  · rw [detectStructure_append]; simp [hig]
  · intro hjs
    rw [detectLanguages_js, countExt_append]
    simp [hjs]

/-- Claim C9, witness: the ignored `node_modules/a.js` leaves the
structure metrics untouched but appears in the language histogram. -/
theorem c9_witness :
    detectStructure ⟨[] ++ [⟨"node_modules/a.js", true, true, ""⟩]⟩ =
      detectStructure ⟨[]⟩ ∧
    List.lookup "JavaScript"
      (detectLanguages ⟨[] ++ [⟨"node_modules/a.js", true, true, ""⟩]⟩) =
      some (countExt ⟨[]⟩ ".js" + 1) :=
  ⟨(c9_ignored_files [] ⟨"node_modules/a.js", true, true, ""⟩ (by decide)).1,
   (c9_ignored_files [] ⟨"node_modules/a.js", true, true, ""⟩ (by decide)).2 (by decide)⟩

/-- Claim C10, confirmed.  A keyword predicate (and likewise a
tech-indicator predicate) is satisfied exactly when one of its tokens
occurs as a substring of the lowercased string representation of the
detected framework set; and both predicates read nothing of the snapshot
beyond the framework set — in particular no file contents — so keywords
present only in source code or comments never satisfy them. -/
theorem c10_keywords_framework_string (t : Triggers) (s : Snapshot) (kws : List String) :
    (t.keywords = some kws →
      (trigKeywords t s = true ↔
        ∃ kw ∈ kws, kw.data <:+: (frameworksStrLower s.detected_frameworks).data)) ∧
    (t.tech_indicators = some kws →
      (trigTechIndicators t s = true ↔
        ∃ kw ∈ kws, kw.data <:+: (frameworksStrLower s.detected_frameworks).data)) ∧
    (∀ (langs : List (String × Nat)) (pats : List String) (fc lc c : Nat),
      trigKeywords t ⟨langs, s.detected_frameworks, pats, fc, lc, c⟩ = trigKeywords t s ∧
      trigTechIndicators t ⟨langs, s.detected_frameworks, pats, fc, lc, c⟩ =
        trigTechIndicators t s) := by
  refine ⟨fun h => ?_, fun h => ?_, fun langs pats fc lc c => ⟨rfl, rfl⟩⟩
  · simp [trigKeywords, h, strContains, List.any_eq_true, charsInfixOf_iff]
  · simp [trigTechIndicators, h, strContains, List.any_eq_true, charsInfixOf_iff]

/-- Claim C10, witness: the compliance rule's keyword "gdpr" is found as
a substring of the stringified framework set containing "gdpr-helper". -/
theorem c10_witness :
    ∃ kw ∈ ["gdpr", "hipaa", "pci", "compliance", "privacy", "regulation"],
      kw.data <:+: (frameworksStrLower ["gdpr-helper"]).data :=
  ((c10_keywords_framework_string ethicsComplianceTriggers ⟨[], ["gdpr-helper"], [], 0, 0, 0⟩
      ["gdpr", "hipaa", "pci", "compliance", "privacy", "regulation"]).1 rfl).mp
    (by decide)
